import Mathlib

/-!
# Deprovision (package apb, deprovision.go)

A shallow embedding of `Deprovision` and `isNamespaceDeleted`.

The Go code talks to the cluster through functions that live in other
packages (`clients.Kubernetes`, `Namespaces().Get`, `NewServiceAccountManager`,
`metrics.ActionStarted`, `ExecuteApb`, `watchPod`, `DestroyApbSandbox`).  They
are taken as parameters, gathered in `Collaborators`, acting on a world of an
arbitrary type `σ`.  Each embedded function threads the world through the
calls in the order the Go code makes them and records every call, with its
arguments, in a list of events.  Go's `error` is `Option Error`, `nil` being
`none`.
-/

namespace Apb

/-- A non-nil Go `error`, identified by its message. -/
abbrev Error := String

/-- Modelled from the spec: the type `Spec` is declared outside
deprovision.go; these are the fields `Deprovision` reads (identity, qualified
name, image reference, description). -/
structure Spec where
  ID : String
  FQName : String
  Image : String
  Description : String
deriving DecidableEq, Repr

/-- Modelled from the spec: the type `Context` is declared outside
deprovision.go; `Deprovision` reads its `Namespace`. -/
structure Context where
  Namespace : String
deriving DecidableEq, Repr

/-- Modelled from the spec: the type `Parameters` is declared outside
deprovision.go; a mapping of invocation parameters, only passed through. -/
abbrev Parameters := List (String × String)

/-- Modelled from the spec: the type `ServiceInstance` is declared outside
deprovision.go; these are the three parts `Deprovision` reads. -/
structure ServiceInstance where
  Spec : Spec
  Context : Context
  Parameters : Parameters
deriving DecidableEq, Repr

/-- Modelled from the spec: the type `ClusterConfig` is declared outside
deprovision.go; configuration that `Deprovision` only passes through. -/
structure ClusterConfig where
  settings : List (String × String)
deriving DecidableEq, Repr

/-- Modelled from the spec: the type `ExecutionContext` is declared outside
deprovision.go; the workload name and namespace that `Deprovision` reads.
`ExecuteApb` hands it over as a value next to its error, so there is a context
on the error path too. -/
structure ExecutionContext where
  PodName : String
  Namespace : String
deriving DecidableEq, Repr

/-- Modelled from the spec: the Kubernetes type `v1.NamespacePhase` is a
string. -/
abbrev NamespacePhase := String

/-- Modelled from the spec: the Kubernetes constant `v1.NamespaceTerminating`,
the terminating lifecycle phase. -/
def NamespaceTerminating : NamespacePhase := "Terminating"

/-- Modelled from the spec: the Kubernetes type `v1.NamespaceStatus`, of which
`isNamespaceDeleted` reads `Phase`. -/
structure NamespaceStatus where
  Phase : NamespacePhase
deriving DecidableEq, Repr

/-- Modelled from the spec: the Kubernetes type `v1.Namespace`, of which
`isNamespaceDeleted` reads `Status.Phase`.  The Go value is a pointer, here an
`Option Namespace` with `nil` as `none`. -/
structure Namespace where
  Name : String
  Status : NamespaceStatus
deriving DecidableEq, Repr

/-- The levels of the logger that `Deprovision` uses. -/
inductive Level where
  | notice
  | error
deriving DecidableEq, Repr

/-- One call that leaves the function, with its arguments. -/
inductive Event where
  | log (level : Level) (msg : String)
  | Kubernetes
  | NamespacesGet (name : String)
  | NewServiceAccountManager
  | ActionStarted (action : String)
  | ExecuteApb (action : String) (clusterConfig : ClusterConfig) (spec : Spec)
      (context : Context) (parameters : Parameters)
  | watchPod (podName : String) (ns : String)
  | DestroyApbSandbox (executionContext : ExecutionContext) (clusterConfig : ClusterConfig)
deriving DecidableEq, Repr

/-- The functions of other packages that deprovision.go calls, as
transformers of a world `σ`.  `Kubernetes` yields the error of
`clients.Kubernetes(log)`; `NamespacesGet` the pair of
`k8scli.CoreV1().Namespaces().Get(name, ...)`; `ExecuteApb` and `watchPod`
their Go pairs.  `DestroyApbSandbox` yields whether the teardown failed. -/
structure Collaborators (σ : Type) where
  Kubernetes : σ → Option Error × σ
  NamespacesGet : String → σ → (Option Namespace × Option Error) × σ
  NewServiceAccountManager : σ → σ
  ActionStarted : String → σ → σ
  ExecuteApb : String → ClusterConfig → Spec → Context → Parameters → σ →
    (ExecutionContext × Option Error) × σ
  watchPod : String → String → σ → (String × Option Error) × σ
  DestroyApbSandbox : ExecutionContext → ClusterConfig → σ → Option Error × σ

/-- What a call of an embedded function leaves behind: the returned values,
the calls it made in order, and the world after it. -/
structure Result (α : Type) (σ : Type) where
  ret : α
  events : List Event
  world : σ

/-- Embedding of `isNamespaceDeleted(name, log)`. -/
def isNamespaceDeleted {σ : Type} (c : Collaborators σ) (name : String) (w : σ) :
    Result (Bool × Option Error) σ :=
  match c.Kubernetes w with
  | (some err, w1) => ⟨(false, some err), [Event.Kubernetes], w1⟩
  | (none, w1) =>
    match c.NamespacesGet name w1 with
    | ((_, some err), w2) =>
      ⟨(false, some err), [Event.Kubernetes, Event.NamespacesGet name], w2⟩
    | ((ns, none), w2) =>
      ⟨(match ns with
          | none => true
          | some n => decide (n.Status.Phase = NamespaceTerminating), none),
        [Event.Kubernetes, Event.NamespacesGet name], w2⟩

/-- The banner that `Deprovision` logs on entry. -/
def banner (inst : ServiceInstance) : List Event :=
  [ Event.log Level.notice "============================================================",
    Event.log Level.notice "                      DEPROVISIONING                        ",
    Event.log Level.notice "============================================================",
    Event.log Level.notice ("ServiceInstance.Id: " ++ inst.Spec.ID),
    Event.log Level.notice ("ServiceInstance.Name: " ++ inst.Spec.FQName),
    Event.log Level.notice ("ServiceInstance.Image: " ++ inst.Spec.Image),
    Event.log Level.notice ("ServiceInstance.Description: " ++ inst.Spec.Description),
    Event.log Level.notice "============================================================" ]

/-- The statement `defer sm.DestroyApbSandbox(executionContext, clusterConfig)`:
the arguments are fixed where the statement stands, the call runs when the
function returns, after the returned values are set, and what the call yields
is dropped. -/
def deferDestroyApbSandbox {σ : Type} (c : Collaborators σ)
    (executionContext : ExecutionContext) (clusterConfig : ClusterConfig)
    (body : Result (String × Option Error) σ) : Result (String × Option Error) σ :=
  ⟨body.ret,
    body.events ++ [Event.DestroyApbSandbox executionContext clusterConfig],
    (c.DestroyApbSandbox executionContext clusterConfig body.world).2⟩

/-- Embedding of `Deprovision(instance, clusterConfig, log)`. -/
def Deprovision {σ : Type} (c : Collaborators σ) (inst : ServiceInstance)
    (clusterConfig : ClusterConfig) (w : σ) : Result (String × Option Error) σ :=
  if inst.Spec.Image = "" then
    ⟨("", some "No image field found on instance.Spec"),
      banner inst ++
        [ Event.log Level.error "No image field found on the apb instance.Spec (apb.yaml)",
          Event.log Level.error
            "apb instance.Spec requires [name] and [image] fields to be separate",
          Event.log Level.error
            "Are you trying to run a legacy ansibleapp without an image field?" ],
      w⟩
  else
    let nsr := isNamespaceDeleted c inst.Context.Namespace w
    match nsr.ret with
    | (_, some err) => ⟨("", some err), banner inst ++ nsr.events, nsr.world⟩
    | (true, none) => ⟨("", none), banner inst ++ nsr.events, nsr.world⟩
    | (false, none) =>
      let w1 := c.NewServiceAccountManager nsr.world
      let w2 := c.ActionStarted "deprovision" w1
      let ex := c.ExecuteApb "deprovision" clusterConfig inst.Spec inst.Context
        inst.Parameters w2
      let executionContext := ex.1.1
      let started := banner inst ++ nsr.events ++
        [ Event.NewServiceAccountManager, Event.ActionStarted "deprovision",
          Event.ExecuteApb "deprovision" clusterConfig inst.Spec inst.Context
            inst.Parameters ]
      deferDestroyApbSandbox c executionContext clusterConfig
        (match ex.1.2 with
        | some err =>
          ⟨(executionContext.PodName, some err),
            started ++
              [ Event.log Level.error
                  ("Problem executing apb [" ++ executionContext.PodName ++ "] deprovision:") ],
            ex.2⟩
        | none =>
          let wp := c.watchPod executionContext.PodName executionContext.Namespace ex.2
          let podOutput := wp.1.1
          let watched := started ++
            [ Event.watchPod executionContext.PodName executionContext.Namespace ]
          match wp.1.2 with
          | some err =>
            ⟨(executionContext.PodName, some err),
              watched ++
                [ Event.log Level.error ("Error returned from watching pod\nerror: " ++ err),
                  Event.log Level.error ("output: " ++ podOutput) ],
              wp.2⟩
          | none => ⟨(executionContext.PodName, none), watched, wp.2⟩)

/-- Whether an event is the namespace lookup: acquiring the Kubernetes client
or the namespace `Get`. -/
def Event.isClusterClient : Event → Bool
  | Event.Kubernetes => true
  | Event.NamespacesGet _ => true
  | _ => false

/-- Whether an event is a call of `NewServiceAccountManager`. -/
def Event.isNewServiceAccountManager : Event → Bool
  | Event.NewServiceAccountManager => true
  | _ => false

/-- Whether an event is a call of `ExecuteApb`. -/
def Event.isExecuteApb : Event → Bool
  | Event.ExecuteApb _ _ _ _ _ => true
  | _ => false

/-- Whether an event is a call of `watchPod`. -/
def Event.isWatchPod : Event → Bool
  | Event.watchPod _ _ => true
  | _ => false

/-- Whether an event is a call of `DestroyApbSandbox`. -/
def Event.isDestroyApbSandbox : Event → Bool
  | Event.DestroyApbSandbox _ _ => true
  | _ => false

/-- Whether an event is a log line. -/
def Event.isLog : Event → Bool
  | Event.log _ _ => true
  | _ => false

/-- The world in which `Deprovision` calls `ExecuteApb` once the image check
and the namespace check have let it through: after `isNamespaceDeleted`,
`NewServiceAccountManager` and `metrics.ActionStarted`. -/
def worldAtExecuteApb {σ : Type} (c : Collaborators σ) (inst : ServiceInstance) (w : σ) : σ :=
  c.ActionStarted "deprovision"
    (c.NewServiceAccountManager (isNamespaceDeleted c inst.Context.Namespace w).world)

/-- What `ExecuteApb` returns to `Deprovision` at the call of lines 72-75. -/
def executed {σ : Type} (c : Collaborators σ) (inst : ServiceInstance)
    (clusterConfig : ClusterConfig) (w : σ) : (ExecutionContext × Option Error) × σ :=
  c.ExecuteApb "deprovision" clusterConfig inst.Spec inst.Context inst.Parameters
    (worldAtExecuteApb c inst w)

/-- What `watchPod` returns to `Deprovision` at the call of line 82. -/
def watched {σ : Type} (c : Collaborators σ) (inst : ServiceInstance)
    (clusterConfig : ClusterConfig) (w : σ) : (String × Option Error) × σ :=
  c.watchPod (executed c inst clusterConfig w).1.1.PodName
    (executed c inst clusterConfig w).1.1.Namespace (executed c inst clusterConfig w).2

/-- The calls up to and including `ExecuteApb` on the paths that get there. -/
def eventsToExecuteApb {σ : Type} (c : Collaborators σ) (inst : ServiceInstance)
    (clusterConfig : ClusterConfig) (w : σ) : List Event :=
  banner inst ++ (isNamespaceDeleted c inst.Context.Namespace w).events ++
    [ Event.NewServiceAccountManager, Event.ActionStarted "deprovision",
      Event.ExecuteApb "deprovision" clusterConfig inst.Spec inst.Context inst.Parameters ]

/-- The world in which the deferred `DestroyApbSandbox` runs on the paths
that get to `ExecuteApb`: the world `ExecuteApb` left when it returned an
error (return of line 79), the world `watchPod` left otherwise (returns of
lines 86 and 89). -/
def worldBeforeTeardown {σ : Type} (c : Collaborators σ) (inst : ServiceInstance)
    (clusterConfig : ClusterConfig) (w : σ) : σ :=
  match (executed c inst clusterConfig w).1.2 with
  | some _ => (executed c inst clusterConfig w).2
  | none => (watched c inst clusterConfig w).2

/-- A cluster that keeps its own record: the world is the list of the calls
the collaborators received, each written down by the collaborator itself with
the arguments it was given; every collaborator answers with the value given
here. -/
def recorder (client : Option Error) (got : Option Namespace × Option Error)
    (ran : ExecutionContext × Option Error) (seen : String × Option Error)
    (torn : Option Error) : Collaborators (List Event) where
  Kubernetes := fun w => (client, w ++ [Event.Kubernetes])
  NamespacesGet := fun name w => (got, w ++ [Event.NamespacesGet name])
  NewServiceAccountManager := fun w => w ++ [Event.NewServiceAccountManager]
  ActionStarted := fun action w => w ++ [Event.ActionStarted action]
  ExecuteApb := fun action clusterConfig spec context parameters w =>
    (ran, w ++ [Event.ExecuteApb action clusterConfig spec context parameters])
  watchPod := fun podName ns w => (seen, w ++ [Event.watchPod podName ns])
  DestroyApbSandbox := fun executionContext clusterConfig w =>
    (torn, w ++ [Event.DestroyApbSandbox executionContext clusterConfig])

/-- A cluster for the examples.  The world counts the calls made so far; every
collaborator answers with the value given here. -/
def cluster (client : Option Error) (got : Option Namespace × Option Error)
    (ran : ExecutionContext × Option Error) (seen : String × Option Error)
    (torn : Option Error) : Collaborators Nat where
  Kubernetes := fun w => (client, w + 1)
  NamespacesGet := fun _ w => (got, w + 1)
  NewServiceAccountManager := fun w => w + 1
  ActionStarted := fun _ w => w + 1
  ExecuteApb := fun _ _ _ _ _ w => (ran, w + 1)
  watchPod := fun _ _ w => (seen, w + 1)
  DestroyApbSandbox := fun _ _ w => (torn, w + 1)

/-- An instance with image `nginx:latest` in namespace `demo`. -/
def nginx : ServiceInstance :=
  ⟨⟨"id-1", "demo-nginx-apb", "nginx:latest", "an example"⟩, ⟨"demo"⟩, [("plan", "default")]⟩

/-- An instance without an image, in namespace `demo`. -/
def legacy : ServiceInstance :=
  ⟨⟨"id-2", "demo-legacy", "", "a legacy ansibleapp"⟩, ⟨"demo"⟩, []⟩

/-- A cluster configuration for the examples. -/
def config : ClusterConfig := ⟨[("pull", "always")]⟩

/-- The namespace `demo` in the given phase. -/
def demo (phase : NamespacePhase) : Namespace := ⟨"demo", ⟨phase⟩⟩

/-- The execution context of pod `pod-123` in namespace `demo`. -/
def pod123 : ExecutionContext := ⟨"pod-123", "demo"⟩

end Apb

namespace Apb

/-- The namespace check only calls the cluster client. -/
theorem isNamespaceDeleted_events {σ : Type} (c : Collaborators σ) (name : String) (w : σ) :
    (isNamespaceDeleted c name w).events = [Event.Kubernetes] ∨
    (isNamespaceDeleted c name w).events = [Event.Kubernetes, Event.NamespacesGet name] := by
  unfold isNamespaceDeleted
  split
  · exact Or.inl rfl
  · split
    · exact Or.inr rfl
    · exact Or.inr rfl

/-- The banner holds log lines only. -/
theorem banner_filter (inst : ServiceInstance) (p : Event → Bool)
    (hp : ∀ l m, p (Event.log l m) = false) : (banner inst).filter p = [] := by
  simp [banner, hp]

/-- The namespace check makes no call that a test rejects on both cluster
client events. -/
theorem isNamespaceDeleted_filter {σ : Type} (c : Collaborators σ) (name : String) (w : σ)
    (p : Event → Bool) (hk : p Event.Kubernetes = false)
    (hg : ∀ n, p (Event.NamespacesGet n) = false) :
    (isNamespaceDeleted c name w).events.filter p = [] := by
  rcases isNamespaceDeleted_events c name w with h | h <;> simp [h, hk, hg]

/-- The path of lines 57-60: the namespace check returned an error. -/
theorem Deprovision_check_failed {σ : Type} (c : Collaborators σ) (inst : ServiceInstance)
    (clusterConfig : ClusterConfig) (w : σ) (b : Bool) (e : Error)
    (himg : inst.Spec.Image ≠ "")
    (hns : (isNamespaceDeleted c inst.Context.Namespace w).ret = (b, some e)) :
    Deprovision c inst clusterConfig w =
      ⟨("", some e), banner inst ++ (isNamespaceDeleted c inst.Context.Namespace w).events,
        (isNamespaceDeleted c inst.Context.Namespace w).world⟩ := by
  simp [Deprovision, himg, hns]

/-- The path of lines 65-67: the namespace is gone or terminating. -/
theorem Deprovision_short_circuit {σ : Type} (c : Collaborators σ) (inst : ServiceInstance)
    (clusterConfig : ClusterConfig) (w : σ)
    (himg : inst.Spec.Image ≠ "")
    (hns : (isNamespaceDeleted c inst.Context.Namespace w).ret = (true, none)) :
    Deprovision c inst clusterConfig w =
      ⟨("", none), banner inst ++ (isNamespaceDeleted c inst.Context.Namespace w).events,
        (isNamespaceDeleted c inst.Context.Namespace w).world⟩ := by
  simp [Deprovision, himg, hns]

/-- The path of lines 77-80: `ExecuteApb` returned an error. -/
theorem Deprovision_execute_failed {σ : Type} (c : Collaborators σ) (inst : ServiceInstance)
    (clusterConfig : ClusterConfig) (w : σ) (e : Error)
    (himg : inst.Spec.Image ≠ "")
    (hns : (isNamespaceDeleted c inst.Context.Namespace w).ret = (false, none))
    (hex : (executed c inst clusterConfig w).1.2 = some e) :
    Deprovision c inst clusterConfig w =
      ⟨((executed c inst clusterConfig w).1.1.PodName, some e),
        eventsToExecuteApb c inst clusterConfig w ++
          [ Event.log Level.error
              ("Problem executing apb [" ++ (executed c inst clusterConfig w).1.1.PodName ++
                "] deprovision:"),
            Event.DestroyApbSandbox (executed c inst clusterConfig w).1.1 clusterConfig ],
        (c.DestroyApbSandbox (executed c inst clusterConfig w).1.1 clusterConfig
          (executed c inst clusterConfig w).2).2⟩ := by
  simp only [executed, worldAtExecuteApb] at hex
  simp [Deprovision, himg, hns, hex, deferDestroyApbSandbox, executed, worldAtExecuteApb,
    eventsToExecuteApb]

/-- The path of lines 83-87: `watchPod` returned an error. -/
theorem Deprovision_watch_failed {σ : Type} (c : Collaborators σ) (inst : ServiceInstance)
    (clusterConfig : ClusterConfig) (w : σ) (e : Error)
    (himg : inst.Spec.Image ≠ "")
    (hns : (isNamespaceDeleted c inst.Context.Namespace w).ret = (false, none))
    (hex : (executed c inst clusterConfig w).1.2 = none)
    (hwp : (watched c inst clusterConfig w).1.2 = some e) :
    Deprovision c inst clusterConfig w =
      ⟨((executed c inst clusterConfig w).1.1.PodName, some e),
        eventsToExecuteApb c inst clusterConfig w ++
          [ Event.watchPod (executed c inst clusterConfig w).1.1.PodName
              (executed c inst clusterConfig w).1.1.Namespace,
            Event.log Level.error ("Error returned from watching pod\nerror: " ++ e),
            Event.log Level.error ("output: " ++ (watched c inst clusterConfig w).1.1),
            Event.DestroyApbSandbox (executed c inst clusterConfig w).1.1 clusterConfig ],
        (c.DestroyApbSandbox (executed c inst clusterConfig w).1.1 clusterConfig
          (watched c inst clusterConfig w).2).2⟩ := by
  simp only [watched, executed, worldAtExecuteApb] at hex hwp
  simp [Deprovision, himg, hns, hex, hwp, deferDestroyApbSandbox, executed, watched,
    worldAtExecuteApb, eventsToExecuteApb]

/-- The path of line 89: execution and observation both succeeded. -/
theorem Deprovision_succeeded {σ : Type} (c : Collaborators σ) (inst : ServiceInstance)
    (clusterConfig : ClusterConfig) (w : σ)
    (himg : inst.Spec.Image ≠ "")
    (hns : (isNamespaceDeleted c inst.Context.Namespace w).ret = (false, none))
    (hex : (executed c inst clusterConfig w).1.2 = none)
    (hwp : (watched c inst clusterConfig w).1.2 = none) :
    Deprovision c inst clusterConfig w =
      ⟨((executed c inst clusterConfig w).1.1.PodName, none),
        eventsToExecuteApb c inst clusterConfig w ++
          [ Event.watchPod (executed c inst clusterConfig w).1.1.PodName
              (executed c inst clusterConfig w).1.1.Namespace,
            Event.DestroyApbSandbox (executed c inst clusterConfig w).1.1 clusterConfig ],
        (c.DestroyApbSandbox (executed c inst clusterConfig w).1.1 clusterConfig
          (watched c inst clusterConfig w).2).2⟩ := by
  simp only [watched, executed, worldAtExecuteApb] at hex hwp
  simp [Deprovision, himg, hns, hex, hwp, deferDestroyApbSandbox, executed, watched,
    worldAtExecuteApb, eventsToExecuteApb]


/-- C2: with an empty image `Deprovision` returns the empty identifier and the
error "No image field found on instance.Spec", makes no call of the cluster
client, `NewServiceAccountManager`, `DestroyApbSandbox`, `ExecuteApb` or
`watchPod` (it only logs), and leaves the world as it was, whatever the
collaborators are. -/
theorem Deprovision_empty_image {σ : Type} (c : Collaborators σ) (inst : ServiceInstance)
    (clusterConfig : ClusterConfig) (w : σ) (himg : inst.Spec.Image = "") :
    (Deprovision c inst clusterConfig w).ret.1 = "" ∧
    (Deprovision c inst clusterConfig w).ret.2 = some "No image field found on instance.Spec" ∧
    (Deprovision c inst clusterConfig w).ret.2 ≠ none ∧
    (Deprovision c inst clusterConfig w).events.filter Event.isClusterClient = [] ∧
    (Deprovision c inst clusterConfig w).events.filter Event.isNewServiceAccountManager = [] ∧
    (Deprovision c inst clusterConfig w).events.filter Event.isDestroyApbSandbox = [] ∧
    (Deprovision c inst clusterConfig w).events.filter Event.isExecuteApb = [] ∧
    (Deprovision c inst clusterConfig w).events.filter Event.isWatchPod = [] ∧
    (∀ e ∈ (Deprovision c inst clusterConfig w).events, e.isLog = true) ∧
    (Deprovision c inst clusterConfig w).world = w := by
  simp [Deprovision, himg, banner, Event.isClusterClient, Event.isNewServiceAccountManager,
    Event.isDestroyApbSandbox, Event.isExecuteApb, Event.isWatchPod, Event.isLog]

/-- On the paths that get to `ExecuteApb`, the world `Deprovision` leaves is
the world that one application of `DestroyApbSandbox` leaves, applied to the
context `ExecuteApb` returned, the cluster configuration and the world before
teardown. -/
theorem Deprovision_world_teardown {σ : Type} (c : Collaborators σ)
    (inst : ServiceInstance) (clusterConfig : ClusterConfig) (w : σ)
    (himg : inst.Spec.Image ≠ "")
    (hns : (isNamespaceDeleted c inst.Context.Namespace w).ret = (false, none)) :
    (Deprovision c inst clusterConfig w).world =
      (c.DestroyApbSandbox (executed c inst clusterConfig w).1.1 clusterConfig
        (worldBeforeTeardown c inst clusterConfig w)).2 := by
  cases hex : (executed c inst clusterConfig w).1.2 with
  | some e =>
    rw [Deprovision_execute_failed c inst clusterConfig w e himg hns hex]
    simp only [worldBeforeTeardown, hex]
  | none =>
    cases hwp : (watched c inst clusterConfig w).1.2 with
    | some e =>
      rw [Deprovision_watch_failed c inst clusterConfig w e himg hns hex hwp]
      simp only [worldBeforeTeardown, hex]
    | none =>
      rw [Deprovision_succeeded c inst clusterConfig w himg hns hex hwp]
      simp only [worldBeforeTeardown, hex]

/-- C1: when the image is non-empty and the namespace check returns
(false, nil), `Deprovision` invokes `DestroyApbSandbox` exactly once, on the
execution context that `ExecuteApb` returned and the cluster configuration,
for every result of `ExecuteApb` and of `watchPod`.  In the record of calls
there is exactly one `DestroyApbSandbox`, with these arguments, and it is the
last call.  In the world, the state `Deprovision` leaves is the one that a
single application of `DestroyApbSandbox` to these arguments makes of the
world before teardown; and whatever function `d` stands for
`DestroyApbSandbox`, the context it is given and the world before teardown
are the same and do not depend on `d`, so `d` is applied once, at the end,
and nowhere before. -/
theorem Deprovision_destroys_sandbox_once {σ : Type} (c : Collaborators σ)
    (inst : ServiceInstance) (clusterConfig : ClusterConfig) (w : σ)
    (himg : inst.Spec.Image ≠ "")
    (hns : (isNamespaceDeleted c inst.Context.Namespace w).ret = (false, none)) :
    (Deprovision c inst clusterConfig w).events.filter Event.isDestroyApbSandbox =
      [Event.DestroyApbSandbox (executed c inst clusterConfig w).1.1 clusterConfig] ∧
    (Deprovision c inst clusterConfig w).events.getLast? =
      some (Event.DestroyApbSandbox (executed c inst clusterConfig w).1.1 clusterConfig) ∧
    (Deprovision c inst clusterConfig w).events.filter Event.isExecuteApb =
      [Event.ExecuteApb "deprovision" clusterConfig inst.Spec inst.Context inst.Parameters] ∧
    (Deprovision c inst clusterConfig w).world =
      (c.DestroyApbSandbox (executed c inst clusterConfig w).1.1 clusterConfig
        (worldBeforeTeardown c inst clusterConfig w)).2 ∧
    (∀ d : ExecutionContext → ClusterConfig → σ → Option Error × σ,
      executed { c with DestroyApbSandbox := d } inst clusterConfig w =
        executed c inst clusterConfig w ∧
      worldBeforeTeardown { c with DestroyApbSandbox := d } inst clusterConfig w =
        worldBeforeTeardown c inst clusterConfig w ∧
      (Deprovision { c with DestroyApbSandbox := d } inst clusterConfig w).world =
        (d (executed c inst clusterConfig w).1.1 clusterConfig
          (worldBeforeTeardown c inst clusterConfig w)).2) := by
  have hd := banner_filter inst Event.isDestroyApbSandbox (fun _ _ => rfl)
  have he := banner_filter inst Event.isExecuteApb (fun _ _ => rfl)
  have hworld := Deprovision_world_teardown c inst clusterConfig w himg hns
  have hrepl : ∀ d : ExecutionContext → ClusterConfig → σ → Option Error × σ,
      executed { c with DestroyApbSandbox := d } inst clusterConfig w =
        executed c inst clusterConfig w ∧
      worldBeforeTeardown { c with DestroyApbSandbox := d } inst clusterConfig w =
        worldBeforeTeardown c inst clusterConfig w ∧
      (Deprovision { c with DestroyApbSandbox := d } inst clusterConfig w).world =
        (d (executed c inst clusterConfig w).1.1 clusterConfig
          (worldBeforeTeardown c inst clusterConfig w)).2 := by
    intro d
    have hns2 : (isNamespaceDeleted { c with DestroyApbSandbox := d }
        inst.Context.Namespace w).ret = (false, none) := hns
    exact ⟨rfl, rfl,
      Deprovision_world_teardown { c with DestroyApbSandbox := d } inst clusterConfig w
        himg hns2⟩
  refine ⟨?_, ?_, ?_, hworld, hrepl⟩
  all_goals
    cases hex : (executed c inst clusterConfig w).1.2 with
    | some e =>
      rw [Deprovision_execute_failed c inst clusterConfig w e himg hns hex]
      rcases isNamespaceDeleted_events c inst.Context.Namespace w with h | h <;>
        simp [eventsToExecuteApb, h, hd, he, Event.isDestroyApbSandbox, Event.isExecuteApb,
          List.filter_cons]
    | none =>
      cases hwp : (watched c inst clusterConfig w).1.2 with
      | some e =>
        rw [Deprovision_watch_failed c inst clusterConfig w e himg hns hex hwp]
        rcases isNamespaceDeleted_events c inst.Context.Namespace w with h | h <;>
          simp [eventsToExecuteApb, h, hd, he, Event.isDestroyApbSandbox,
            Event.isExecuteApb, List.filter_cons]
      | none =>
        rw [Deprovision_succeeded c inst clusterConfig w himg hns hex hwp]
        rcases isNamespaceDeleted_events c inst.Context.Namespace w with h | h <;>
          simp [eventsToExecuteApb, h, hd, he, Event.isDestroyApbSandbox,
            Event.isExecuteApb, List.filter_cons]

/-- C1 at an instance, on the cluster that keeps its own record: `ExecuteApb`
fails with "quota exceeded" after naming pod-123, and the teardown itself
fails.  The record the collaborators wrote holds one `DestroyApbSandbox`, of
pod-123, as the last call, and no `watchPod`. -/
theorem Deprovision_destroys_sandbox_once_witness :
    nginx.Spec.Image ≠ "" ∧
    (isNamespaceDeleted
      (recorder none (some (demo "Active"), none) (pod123, some "quota exceeded") ("", none)
        (some "forbidden"))
      nginx.Context.Namespace []).ret = (false, none) ∧
    (Deprovision
      (recorder none (some (demo "Active"), none) (pod123, some "quota exceeded") ("", none)
        (some "forbidden"))
      nginx config []).events.filter Event.isDestroyApbSandbox =
        [Event.DestroyApbSandbox pod123 config] ∧
    (Deprovision
      (recorder none (some (demo "Active"), none) (pod123, some "quota exceeded") ("", none)
        (some "forbidden"))
      nginx config []).world =
        [ Event.Kubernetes, Event.NamespacesGet "demo", Event.NewServiceAccountManager,
          Event.ActionStarted "deprovision",
          Event.ExecuteApb "deprovision" config nginx.Spec nginx.Context nginx.Parameters,
          Event.DestroyApbSandbox pod123 config ] :=
  have h := Deprovision_destroys_sandbox_once
    (recorder none (some (demo "Active"), none) (pod123, some "quota exceeded") ("", none)
      (some "forbidden"))
    nginx config [] (by decide) (by decide)
  ⟨by decide, by decide, h.1, h.2.2.2.1⟩

/-- C2 at an instance: the legacy instance has no image. -/
theorem Deprovision_empty_image_witness :
    legacy.Spec.Image = "" ∧
    (Deprovision
      (cluster none (some (demo "Active"), none) (pod123, none) ("ok", none) none)
      legacy config 0).ret = ("", some "No image field found on instance.Spec") ∧
    (Deprovision
      (cluster none (some (demo "Active"), none) (pod123, none) ("ok", none) none)
      legacy config 0).world = 0 :=
  have h := Deprovision_empty_image
    (cluster none (some (demo "Active"), none) (pod123, none) ("ok", none) none)
    legacy config 0 rfl
  ⟨rfl, Prod.ext h.1 h.2.1, h.2.2.2.2.2.2.2.2.2⟩

/-- C3: with a non-empty image, when `isNamespaceDeleted` returns (true, nil)
`Deprovision` returns the empty identifier and a nil error and makes no call
of `ExecuteApb`, `watchPod`, `DestroyApbSandbox` or
`NewServiceAccountManager`. -/
theorem Deprovision_namespace_deleted {σ : Type} (c : Collaborators σ)
    (inst : ServiceInstance) (clusterConfig : ClusterConfig) (w : σ)
    (himg : inst.Spec.Image ≠ "")
    (hns : (isNamespaceDeleted c inst.Context.Namespace w).ret = (true, none)) :
    (Deprovision c inst clusterConfig w).ret = ("", none) ∧
    (Deprovision c inst clusterConfig w).events.filter Event.isExecuteApb = [] ∧
    (Deprovision c inst clusterConfig w).events.filter Event.isWatchPod = [] ∧
    (Deprovision c inst clusterConfig w).events.filter Event.isDestroyApbSandbox = [] ∧
    (Deprovision c inst clusterConfig w).events.filter Event.isNewServiceAccountManager = [] := by
  rw [Deprovision_short_circuit c inst clusterConfig w himg hns]
  refine ⟨rfl, ?_, ?_, ?_, ?_⟩ <;>
    simp only [List.filter_append] <;>
    rw [banner_filter inst _ (fun _ _ => rfl),
      isNamespaceDeleted_filter c _ w _ rfl (fun _ => rfl)] <;>
    rfl

/-- C3 at an instance: Scenario B, the namespace is in phase Terminating. -/
theorem Deprovision_namespace_deleted_witness :
    nginx.Spec.Image ≠ "" ∧
    (isNamespaceDeleted
      (cluster none (some (demo "Terminating"), none) (pod123, none) ("ok", none) none)
      nginx.Context.Namespace 0).ret = (true, none) ∧
    (Deprovision
      (cluster none (some (demo "Terminating"), none) (pod123, none) ("ok", none) none)
      nginx config 0).ret = ("", none) :=
  ⟨by decide, by decide,
    (Deprovision_namespace_deleted
      (cluster none (some (demo "Terminating"), none) (pod123, none) ("ok", none) none)
      nginx config 0 (by decide) (by decide)).1⟩

/-- C4: with a non-empty image, when acquiring the Kubernetes client fails
with `e`, or the client is acquired and the namespace `Get` returns the error
`e` (whatever namespace value comes with it), `Deprovision` returns the empty
identifier and exactly `e`, and makes no call of `NewServiceAccountManager`,
`ExecuteApb`, `watchPod` or `DestroyApbSandbox`. -/
theorem Deprovision_namespace_check_error {σ : Type} (c : Collaborators σ)
    (inst : ServiceInstance) (clusterConfig : ClusterConfig) (w : σ) (e : Error)
    (himg : inst.Spec.Image ≠ "")
    (hfail : (c.Kubernetes w).1 = some e ∨
      ((c.Kubernetes w).1 = none ∧
        (c.NamespacesGet inst.Context.Namespace (c.Kubernetes w).2).1.2 = some e)) :
    (Deprovision c inst clusterConfig w).ret = ("", some e) ∧
    (Deprovision c inst clusterConfig w).events.filter Event.isNewServiceAccountManager = [] ∧
    (Deprovision c inst clusterConfig w).events.filter Event.isExecuteApb = [] ∧
    (Deprovision c inst clusterConfig w).events.filter Event.isWatchPod = [] ∧
    (Deprovision c inst clusterConfig w).events.filter Event.isDestroyApbSandbox = [] := by
  have hns : (isNamespaceDeleted c inst.Context.Namespace w).ret = (false, some e) := by
    unfold isNamespaceDeleted
    rcases hfail with h | ⟨h, hg⟩
    · split
      · next err w1 hk => rw [hk] at h; simp at h; simp [h]
      · next w1 hk => rw [hk] at h; simp at h
    · split
      · next err w1 hk => rw [hk] at h; simp at h
      · next w1 hk =>
        rw [hk] at hg
        simp only at hg
        split
        · next x err w2 hget => rw [hget] at hg; simp at hg; simp [hg]
        · next ns w2 hget => rw [hget] at hg; simp at hg
  rw [Deprovision_check_failed c inst clusterConfig w false e himg hns]
  refine ⟨rfl, ?_, ?_, ?_, ?_⟩ <;>
    simp only [List.filter_append] <;>
    rw [banner_filter inst _ (fun _ _ => rfl),
      isNamespaceDeleted_filter c _ w _ rfl (fun _ => rfl)] <;>
    rfl

/-- C4 at an instance: Scenario E, the namespace `Get` fails with "network
failure". -/
theorem Deprovision_namespace_check_error_witness :
    nginx.Spec.Image ≠ "" ∧
    (Deprovision
      (cluster none (none, some "network failure") (pod123, none) ("ok", none) none)
      nginx config 0).ret = ("", some "network failure") :=
  ⟨by decide,
    (Deprovision_namespace_check_error
      (cluster none (none, some "network failure") (pod123, none) ("ok", none) none)
      nginx config 0 "network failure" (by decide) (Or.inr ⟨rfl, rfl⟩)).1⟩

/-- C5: when `Deprovision` gets to `ExecuteApb` (non-empty image, namespace
check (false, nil)) and `ExecuteApb` returns a context together with an error
`e`, `Deprovision` returns that context's `PodName` and `e`, and makes no
call of `watchPod`. -/
theorem Deprovision_execute_error {σ : Type} (c : Collaborators σ)
    (inst : ServiceInstance) (clusterConfig : ClusterConfig) (w : σ)
    (executionContext : ExecutionContext) (e : Error)
    (himg : inst.Spec.Image ≠ "")
    (hns : (isNamespaceDeleted c inst.Context.Namespace w).ret = (false, none))
    (hex : (executed c inst clusterConfig w).1 = (executionContext, some e)) :
    (Deprovision c inst clusterConfig w).ret = (executionContext.PodName, some e) ∧
    (Deprovision c inst clusterConfig w).events.filter Event.isWatchPod = [] := by
  have h2 : (executed c inst clusterConfig w).1.2 = some e := by rw [hex]
  have h1 : (executed c inst clusterConfig w).1.1 = executionContext := by rw [hex]
  rw [Deprovision_execute_failed c inst clusterConfig w e himg hns h2, h1]
  refine ⟨rfl, ?_⟩
  simp only [eventsToExecuteApb, List.filter_append]
  rw [banner_filter inst _ (fun _ _ => rfl),
    isNamespaceDeleted_filter c _ w _ rfl (fun _ => rfl)]
  rfl

/-- C5 at an instance: `ExecuteApb` names pod-123 and fails with "quota
exceeded"; the watcher would have failed too, and is not asked. -/
theorem Deprovision_execute_error_witness :
    nginx.Spec.Image ≠ "" ∧
    (Deprovision
      (cluster none (some (demo "Active"), none) (pod123, some "quota exceeded")
        ("", some "watch timeout") none)
      nginx config 0).ret = ("pod-123", some "quota exceeded") :=
  ⟨by decide,
    (Deprovision_execute_error
      (cluster none (some (demo "Active"), none) (pod123, some "quota exceeded")
        ("", some "watch timeout") none)
      nginx config 0 pod123 "quota exceeded" (by decide) (by decide) rfl).1⟩

/-- C6: when `ExecuteApb` returns a context with nil error and `watchPod`
returns the output `podOutput` together with an error `e`, `Deprovision`
returns the context's `PodName` and `e`, whatever `podOutput` is. -/
theorem Deprovision_watch_error {σ : Type} (c : Collaborators σ)
    (inst : ServiceInstance) (clusterConfig : ClusterConfig) (w : σ)
    (executionContext : ExecutionContext) (podOutput : String) (e : Error)
    (himg : inst.Spec.Image ≠ "")
    (hns : (isNamespaceDeleted c inst.Context.Namespace w).ret = (false, none))
    (hex : (executed c inst clusterConfig w).1 = (executionContext, none))
    (hwp : (watched c inst clusterConfig w).1 = (podOutput, some e)) :
    (Deprovision c inst clusterConfig w).ret = (executionContext.PodName, some e) := by
  have h2 : (executed c inst clusterConfig w).1.2 = none := by rw [hex]
  have h1 : (executed c inst clusterConfig w).1.1 = executionContext := by rw [hex]
  have h3 : (watched c inst clusterConfig w).1.2 = some e := by rw [hwp]
  rw [Deprovision_watch_failed c inst clusterConfig w e himg hns h2 h3, h1]

/-- C6 at an instance: Scenario D, the watcher fails with "watch timeout"
after some output. -/
theorem Deprovision_watch_error_witness :
    nginx.Spec.Image ≠ "" ∧
    (Deprovision
      (cluster none (some (demo "Active"), none) (pod123, none)
        ("TASK [deprovision]", some "watch timeout") none)
      nginx config 0).ret = ("pod-123", some "watch timeout") :=
  ⟨by decide,
    Deprovision_watch_error
      (cluster none (some (demo "Active"), none) (pod123, none)
        ("TASK [deprovision]", some "watch timeout") none)
      nginx config 0 pod123 "TASK [deprovision]" "watch timeout" (by decide) (by decide)
      rfl rfl⟩

/-- C7: with a non-empty image, when the Kubernetes client is acquired,
the `Get` of the namespace returns a namespace with nil error whose phase is
not Terminating, `ExecuteApb` returns a context with nil error and `watchPod`
returns nil error, `Deprovision` returns the context's `PodName` and a nil
error, and its one call of `watchPod` has the context's `PodName` and
`Namespace` as arguments. -/
theorem Deprovision_success {σ : Type} (c : Collaborators σ)
    (inst : ServiceInstance) (clusterConfig : ClusterConfig) (w : σ)
    (n : Namespace) (executionContext : ExecutionContext) (podOutput : String)
    (himg : inst.Spec.Image ≠ "")
    (hcli : (c.Kubernetes w).1 = none)
    (hget : (c.NamespacesGet inst.Context.Namespace (c.Kubernetes w).2).1 = (some n, none))
    (hphase : n.Status.Phase ≠ NamespaceTerminating)
    (hex : (executed c inst clusterConfig w).1 = (executionContext, none))
    (hwp : (watched c inst clusterConfig w).1 = (podOutput, none)) :
    (Deprovision c inst clusterConfig w).ret = (executionContext.PodName, none) ∧
    (Deprovision c inst clusterConfig w).events.filter Event.isWatchPod =
      [Event.watchPod executionContext.PodName executionContext.Namespace] := by
  have hns : (isNamespaceDeleted c inst.Context.Namespace w).ret = (false, none) := by
    unfold isNamespaceDeleted
    split
    · next err w1 hk => rw [hk] at hcli; simp at hcli
    · next w1 hk =>
      rw [hk] at hget
      simp only at hget
      split
      · next x err w2 hg => rw [hg] at hget; simp at hget
      · next ns w2 hg =>
        rw [hg] at hget
        simp only [Prod.mk.injEq, and_true] at hget
        subst hget
        simp [hphase]
  have h2 : (executed c inst clusterConfig w).1.2 = none := by rw [hex]
  have h1 : (executed c inst clusterConfig w).1.1 = executionContext := by rw [hex]
  have h3 : (watched c inst clusterConfig w).1.2 = none := by rw [hwp]
  rw [Deprovision_succeeded c inst clusterConfig w himg hns h2 h3, h1]
  refine ⟨rfl, ?_⟩
  simp only [eventsToExecuteApb, List.filter_append]
  rw [banner_filter inst _ (fun _ _ => rfl),
    isNamespaceDeleted_filter c _ w _ rfl (fun _ => rfl)]
  rfl

/-- C7 at an instance: Scenario C, image nginx:latest, phase Active, handle
pod-123, output "ok"; the result is ("pod-123", nil). -/
theorem Deprovision_success_witness :
    nginx.Spec.Image ≠ "" ∧ (demo "Active").Status.Phase ≠ NamespaceTerminating ∧
    (Deprovision
      (cluster none (some (demo "Active"), none) (pod123, none) ("ok", none) none)
      nginx config 0).ret = ("pod-123", none) ∧
    (Deprovision
      (cluster none (some (demo "Active"), none) (pod123, none) ("ok", none) none)
      nginx config 0).events.filter Event.isWatchPod = [Event.watchPod "pod-123" "demo"] :=
  ⟨by decide, by decide,
    Deprovision_success
      (cluster none (some (demo "Active"), none) (pod123, none) ("ok", none) none)
      nginx config 0 (demo "Active") pod123 "ok" (by decide) rfl rfl (by decide) rfl rfl⟩

/-- C8, as stated, fails: in Scenario B (image nginx:latest, namespace in
phase Terminating) `Deprovision` returns a nil error although `ExecuteApb`
and `watchPod` were never invoked. -/
theorem Deprovision_nil_error_without_execution :
    (Deprovision
      (cluster none (some (demo "Terminating"), none) (pod123, none) ("ok", none) none)
      nginx config 0).ret.2 = none ∧
    (Deprovision
      (cluster none (some (demo "Terminating"), none) (pod123, none) ("ok", none) none)
      nginx config 0).events.filter Event.isExecuteApb = [] ∧
    (Deprovision
      (cluster none (some (demo "Terminating"), none) (pod123, none) ("ok", none) none)
      nginx config 0).events.filter Event.isWatchPod = [] ∧
    ¬ ((Deprovision
      (cluster none (some (demo "Terminating"), none) (pod123, none) ("ok", none) none)
      nginx config 0).ret.2 = none →
        ∃ ev ∈ (Deprovision
          (cluster none (some (demo "Terminating"), none) (pod123, none) ("ok", none) none)
          nginx config 0).events, ev.isExecuteApb = true) := by
  refine ⟨by decide, by decide, by decide, ?_⟩
  intro h
  obtain ⟨ev, hmem, hev⟩ := h (by decide)
  have hin : ev ∈ (Deprovision
      (cluster none (some (demo "Terminating"), none) (pod123, none) ("ok", none) none)
      nginx config 0).events.filter Event.isExecuteApb := List.mem_filter.mpr ⟨hmem, hev⟩
  have hnil : (Deprovision
      (cluster none (some (demo "Terminating"), none) (pod123, none) ("ok", none) none)
      nginx config 0).events.filter Event.isExecuteApb = [] := by decide
  rw [hnil] at hin
  exact List.not_mem_nil _ hin

/-- C8, amended: whenever `Deprovision` returns a nil error, the image was
non-empty and the namespace check returned without error, and either the
check reported the namespace deleted, the identifier is empty and none of
`ExecuteApb`, `watchPod` and `DestroyApbSandbox` was invoked, or the check
reported it present, `ExecuteApb` was invoked and returned nil error, and
`watchPod` was invoked and returned nil error. -/
theorem Deprovision_nil_error {σ : Type} (c : Collaborators σ)
    (inst : ServiceInstance) (clusterConfig : ClusterConfig) (w : σ)
    (hnil : (Deprovision c inst clusterConfig w).ret.2 = none) :
    inst.Spec.Image ≠ "" ∧
    (isNamespaceDeleted c inst.Context.Namespace w).ret.2 = none ∧
    (((isNamespaceDeleted c inst.Context.Namespace w).ret.1 = true ∧
        (Deprovision c inst clusterConfig w).ret.1 = "" ∧
        (Deprovision c inst clusterConfig w).events.filter Event.isExecuteApb = [] ∧
        (Deprovision c inst clusterConfig w).events.filter Event.isWatchPod = [] ∧
        (Deprovision c inst clusterConfig w).events.filter Event.isDestroyApbSandbox = []) ∨
      ((isNamespaceDeleted c inst.Context.Namespace w).ret.1 = false ∧
        (Deprovision c inst clusterConfig w).events.filter Event.isExecuteApb =
          [Event.ExecuteApb "deprovision" clusterConfig inst.Spec inst.Context
            inst.Parameters] ∧
        (executed c inst clusterConfig w).1.2 = none ∧
        (Deprovision c inst clusterConfig w).events.filter Event.isWatchPod =
          [Event.watchPod (executed c inst clusterConfig w).1.1.PodName
            (executed c inst clusterConfig w).1.1.Namespace] ∧
        (watched c inst clusterConfig w).1.2 = none)) := by
  by_cases himg : inst.Spec.Image = ""
  · simp [Deprovision, himg] at hnil
  · refine ⟨himg, ?_⟩
    rcases hret : (isNamespaceDeleted c inst.Context.Namespace w).ret with ⟨b, oe⟩
    cases oe with
    | some e =>
      rw [Deprovision_check_failed c inst clusterConfig w b e himg hret] at hnil
      exact absurd hnil (by simp)
    | none =>
      refine ⟨rfl, ?_⟩
      cases b with
      | true =>
        rw [Deprovision_short_circuit c inst clusterConfig w himg hret]
        refine Or.inl ⟨rfl, rfl, ?_, ?_, ?_⟩ <;>
          simp only [List.filter_append] <;>
          rw [banner_filter inst _ (fun _ _ => rfl),
            isNamespaceDeleted_filter c _ w _ rfl (fun _ => rfl)] <;>
          rfl
      | false =>
        cases hex : (executed c inst clusterConfig w).1.2 with
        | some e =>
          rw [Deprovision_execute_failed c inst clusterConfig w e himg hret hex] at hnil
          exact absurd hnil (by simp)
        | none =>
          cases hwp : (watched c inst clusterConfig w).1.2 with
          | some e =>
            rw [Deprovision_watch_failed c inst clusterConfig w e himg hret hex hwp] at hnil
            exact absurd hnil (by simp)
          | none =>
            rw [Deprovision_succeeded c inst clusterConfig w himg hret hex hwp]
            refine Or.inr ⟨rfl, ?_, rfl, ?_, rfl⟩ <;>
              simp only [eventsToExecuteApb, List.filter_append] <;>
              rw [banner_filter inst _ (fun _ _ => rfl),
                isNamespaceDeleted_filter c _ w _ rfl (fun _ => rfl)] <;>
              rfl

/-- C8, amended, at an instance: in Scenario C the error is nil, and
`ExecuteApb` and `watchPod` were both invoked and returned nil errors. -/
theorem Deprovision_nil_error_witness :
    (Deprovision
      (cluster none (some (demo "Active"), none) (pod123, none) ("ok", none) none)
      nginx config 0).ret.2 = none ∧
    nginx.Spec.Image ≠ "" ∧
    (isNamespaceDeleted
      (cluster none (some (demo "Active"), none) (pod123, none) ("ok", none) none)
      nginx.Context.Namespace 0).ret.2 = none :=
  have h := Deprovision_nil_error
    (cluster none (some (demo "Active"), none) (pod123, none) ("ok", none) none)
    nginx config 0 (by decide)
  ⟨by decide, h.1, h.2.1⟩

/-- C9: two runs of `Deprovision` on the same instance, configuration and
world, with collaborators that agree on everything but `DestroyApbSandbox`
(which may succeed in one and fail in the other, and may leave different
worlds), return the same (identifier, error) pair and make the same calls. -/
theorem Deprovision_ret_ignores_teardown {σ : Type} (c : Collaborators σ)
    (d1 d2 : ExecutionContext → ClusterConfig → σ → Option Error × σ)
    (inst : ServiceInstance) (clusterConfig : ClusterConfig) (w : σ) :
    (Deprovision { c with DestroyApbSandbox := d1 } inst clusterConfig w).ret =
      (Deprovision { c with DestroyApbSandbox := d2 } inst clusterConfig w).ret ∧
    (Deprovision { c with DestroyApbSandbox := d1 } inst clusterConfig w).events =
      (Deprovision { c with DestroyApbSandbox := d2 } inst clusterConfig w).events := by
  have hns : ∀ d, isNamespaceDeleted { c with DestroyApbSandbox := d } inst.Context.Namespace w =
      isNamespaceDeleted c inst.Context.Namespace w := fun _ => rfl
  unfold Deprovision
  simp only [hns]
  split
  · exact ⟨rfl, rfl⟩
  · split
    · exact ⟨rfl, rfl⟩
    · exact ⟨rfl, rfl⟩
    · exact ⟨rfl, rfl⟩

/-- C10: when the Kubernetes client is acquired and the namespace `Get`
returns `ns` with nil error, `isNamespaceDeleted` returns a nil error, and
its boolean is true exactly when `ns` is nil or has phase Terminating. -/
theorem isNamespaceDeleted_spec {σ : Type} (c : Collaborators σ) (name : String) (w : σ)
    (ns : Option Namespace)
    (hcli : (c.Kubernetes w).1 = none)
    (hget : (c.NamespacesGet name (c.Kubernetes w).2).1 = (ns, none)) :
    (isNamespaceDeleted c name w).ret.2 = none ∧
    ((isNamespaceDeleted c name w).ret.1 = true ↔
      (ns = none ∨ ∃ n, ns = some n ∧ n.Status.Phase = NamespaceTerminating)) ∧
    ((isNamespaceDeleted c name w).ret.1 = false ↔
      ∃ n, ns = some n ∧ n.Status.Phase ≠ NamespaceTerminating) := by
  unfold isNamespaceDeleted
  split
  · next err w1 hk => rw [hk] at hcli; simp at hcli
  · next w1 hk =>
    rw [hk] at hget
    simp only at hget
    split
    · next x err w2 hg => rw [hg] at hget; simp at hget
    · next ns2 w2 hg =>
      rw [hg] at hget
      simp only [Prod.mk.injEq, and_true] at hget
      subst hget
      cases ns2 with
      | none => simp
      | some n => simp

/-- C10 at an instance: a namespace in phase Active is not deleted. -/
theorem isNamespaceDeleted_spec_witness :
    (isNamespaceDeleted
      (cluster none (some (demo "Active"), none) (pod123, none) ("ok", none) none)
      "demo" 0).ret = (false, none) :=
  have h := isNamespaceDeleted_spec
    (cluster none (some (demo "Active"), none) (pod123, none) ("ok", none) none)
    "demo" 0 (some (demo "Active")) rfl rfl
  Prod.ext (h.2.2.mpr ⟨demo "Active", rfl, by decide⟩) h.1

end Apb
